import Mathlib

/-
  Verification of the community-js data layer (TypeScript sources under src/ts).

  The embedding models:
  - the cell values stored in MySQL rows and the descriptor objects
    (partial field-to-value mappings) used throughout the library;
  - util/sql-construction.ts: generateWhereClauseForObject and
    generateSetClauseForObject;
  - authentication-agent.ts: AuthenticationAgent with createHash, checkLogin,
    createLogin (the pbkdf2 primitive of the crypto module is an external
    collaborator and is passed in as a function parameter);
  - community.ts: getUser, doesUserExist, createUser (INSERT IGNORE against a
    users table with uniqueness constraints), the multi-statement updateUsers
    script (modelled statement by statement), and the delete operations.
-/

namespace CommunityJS

/-- A cell value as produced by the mysql driver: strings, integers, or NULL. -/
inductive Value where
  | vStr : String → Value
  | vInt : Int → Value
  | vNull : Value
deriving DecidableEq

/-- A row object: an association list from column names to values, mirroring
the JavaScript objects handed around by the library. -/
abbrev Row := List (String × Value)

/-- A result set or table: a list of rows. -/
abbrev Table := List Row

/-- A descriptor (UserDescriptor or update object): a partial field-to-value
mapping, represented as an association list in JavaScript property order. -/
abbrev Descriptor := List (String × Value)

/-- SQL equality as used by the = operator in WHERE and ON clauses: NULL is
never equal to anything, values of the same kind compare componentwise. -/
def sqlEq : Value → Value → Bool
  | Value.vStr a, Value.vStr b => a == b
  | Value.vInt a, Value.vInt b => a == b
  | _, _ => false

/-- Property access on a row object: the value of the first binding of the
given column name, if any. -/
def getField : Row → String → Option Value
  | [], _ => none
  | p :: rest, k => if p.1 = k then some p.2 else getField rest k

/-- Assignment of a column on a row: replaces the first binding of the key,
or appends a new binding when the column is not present. -/
def setField : Row → String → Value → Row
  | [], k, v => [(k, v)]
  | p :: rest, k, v => if p.1 = k then (k, v) :: rest else p :: setField rest k v

/-- Truth of the one-column comparison `c = v` on a row, with SQL NULL
semantics. -/
def columnEq (r : Row) (c : String) (v : Value) : Bool :=
  match getField r c with
  | some w => sqlEq w v
  | none => false

/-- Truth of a generated WHERE clause on a row: the conjunction (AND) of
`key = value` comparisons, one per descriptor entry. -/
def matchesDescriptor (d : Descriptor) (r : Row) : Bool :=
  d.all fun kv => columnEq r kv.1 kv.2

/-- Effect of a generated SET clause on a row: the assignments are applied in
descriptor order. -/
def applySet (u : Descriptor) (r : Row) : Row :=
  u.foldl (fun acc kv => setField acc kv.1 kv.2) r

/-- The `id` column of a row (schema: id INT NOT NULL AUTO_INCREMENT
PRIMARY KEY). -/
def rowId (r : Row) : Option Value := getField r "id"

/-- Whether the `id` column of a row holds a non-NULL integer, as the users
schema guarantees for every stored row. -/
def hasIntId (r : Row) : Bool :=
  match rowId r with
  | some (Value.vInt _) => true
  | _ => false

/- ===== util/sql-construction.ts ===== -/

/-- The escaping capability of the mysql connection
(StringEscapingAgent in util/sql-construction.ts). -/
structure StringEscapingAgent where
  escape : Value → String
  escapeId : String → String

/-- generateWhereClauseForObject (util/sql-construction.ts, lines 9 to 16):
joins `escapedId = escapedValue` fragments with AND, prefixing WHERE when
requested. -/
def generateWhereClauseForObject (obj : Descriptor) (escapingAgent : StringEscapingAgent)
    (includeWhereStatement : Bool := true) : String :=
  (if includeWhereStatement then "WHERE " else "")
    ++ String.intercalate " AND "
      (obj.map fun kv => escapingAgent.escapeId kv.1 ++ " = " ++ escapingAgent.escape kv.2)

/-- generateSetClauseForObject (util/sql-construction.ts, lines 18 to 25):
identical structure joined by commas, prefixed with SET. -/
def generateSetClauseForObject (obj : Descriptor) (escapingAgent : StringEscapingAgent)
    (includeSetStatement : Bool := true) : String :=
  (if includeSetStatement then "SET " else "")
    ++ String.intercalate ", "
      (obj.map fun kv => escapingAgent.escapeId kv.1 ++ " = " ++ escapingAgent.escape kv.2)

/-- A concrete escaping agent standing in for the mysql pool, used to
evaluate the clause builders on concrete inputs. -/
def plainAgent : StringEscapingAgent where
  escape := fun v =>
    match v with
    | Value.vStr s => "\x27" ++ s ++ "\x27"
    | Value.vInt n => toString n
    | Value.vNull => "NULL"
  escapeId := fun s => s

/- ===== basic lemmas about rows and descriptors ===== -/

theorem sqlEq_true_eq {a b : Value} (h : sqlEq a b = true) : a = b := by
  cases a <;> cases b <;> simp_all [sqlEq]

theorem columnEq_eq_true {r : Row} {c : String} {v : Value} :
    columnEq r c v = true ↔ ∃ w, getField r c = some w ∧ sqlEq w v = true := by
  unfold columnEq
  cases h : getField r c <;> simp [h]

theorem getField_setField_ne (r : Row) {k k2 : String} (v : Value) (h : k ≠ k2) :
    getField (setField r k v) k2 = getField r k2 := by
  induction r with
  | nil => simp [setField, getField, h]
  | cons p rest ih =>
    by_cases hp : p.1 = k
    · simp [setField, getField, hp, h, Ne.symm h]
    · simp only [setField, if_neg hp]
      by_cases hp2 : p.1 = k2
      · simp [getField, hp2]
      · simp [getField, hp2, ih]

theorem rowId_applySet {u : Descriptor} (r : Row) (hid : "id" ∉ u.map Prod.fst) :
    rowId (applySet u r) = rowId r := by
  induction u generalizing r with
  | nil => rfl
  | cons kv rest ih =>
    have h1 : kv.1 ≠ "id" := by
      intro h
      exact hid (by simp [h])
    have h2 : "id" ∉ rest.map Prod.fst := by
      intro h
      exact hid (by simp [h])
    show rowId (applySet rest (setField r kv.1 kv.2)) = rowId r
    rw [ih _ h2]
    exact getField_setField_ne r kv.2 h1

theorem hasIntId_elim {r : Row} (h : hasIntId r = true) :
    ∃ n : Int, rowId r = some (Value.vInt n) := by
  unfold hasIntId at h
  cases hr : rowId r with
  | none => rw [hr] at h; simp at h
  | some w =>
    cases w with
    | vStr s => rw [hr] at h; simp at h
    | vInt n => exact ⟨n, rfl⟩
    | vNull => rw [hr] at h; simp at h

/- ===== authentication-agent.ts ===== -/

/-- Ephemeral credential material (schema/user-password-information.ts). -/
structure UserPasswordInformation where
  passwordHash : String
  passwordSalt : String
  passwordIterations : Nat
deriving DecidableEq

/-- The state of an AuthenticationAgent (authentication-agent.ts, lines 18
to 53): pepper, default iteration count, and the pluggable conformity
predicate. -/
structure AuthenticationAgent where
  pepper : String
  hashingIterations : Nat
  passwordConformityFunction : String → Bool

/-- checkPasswordConformity (authentication-agent.ts, lines 64 to 68). -/
def checkPasswordConformity (agent : AuthenticationAgent) (password : String) : Bool :=
  agent.passwordConformityFunction password

/-- createHash (authentication-agent.ts, lines 82 to 97): calls
crypto.pbkdf2(input, salt + pepper, iterations, 128, SHA256). The pbkdf2
primitive is an external collaborator, passed in as the function `pb`
taking the input, the concatenated salt-plus-pepper, and the iteration
count (key length and digest name are fixed constants in the source). -/
def createHash (pb : String → String → Nat → String) (agent : AuthenticationAgent)
    (input salt : String) (iterations : Nat) : String :=
  pb input (salt ++ agent.pepper) iterations

/-- checkLogin (authentication-agent.ts, lines 107 to 115): recomputes the
hash from the attempt with the stored salt and iteration count and compares
it to the stored hash with the === operator. Only the three credential
columns of the user are read. -/
def checkLogin (pb : String → String → Nat → String) (agent : AuthenticationAgent)
    (user : UserPasswordInformation) (passwordAttempt : String) : Bool :=
  user.passwordHash == createHash pb agent passwordAttempt user.passwordSalt user.passwordIterations

/-- createLogin (authentication-agent.ts, lines 125 to 136): returns
undefined (none) when the conformity check fails; otherwise derives the hash
over a fresh random salt. The salt drawn from crypto.randomBytes is an
external input and is passed in as the `salt` parameter. -/
def createLogin (pb : String → String → Nat → String) (agent : AuthenticationAgent)
    (password : String) (salt : String) : Option UserPasswordInformation :=
  if checkPasswordConformity agent password = false then none
  else some
    { passwordHash := createHash pb agent password salt agent.hashingIterations
      passwordSalt := salt
      passwordIterations := agent.hashingIterations }

/- ===== community.ts: lookup operations ===== -/

/-- getUser (community.ts, lines 297 to 309): SELECT * with the generated
WHERE clause and LIMIT 1; returns results[0] when the result set is
non-empty and undefined (none) otherwise. The WHERE clause selects the rows
satisfying the descriptor, LIMIT 1 keeps the first. -/
def getUser (userInfo : Descriptor) (rows : Table) : Option Row :=
  let results := (rows.filter (matchesDescriptor userInfo)).take 1
  results.head?

/-- doesUserExist (community.ts, lines 282 to 286): awaits getUser and
checks the result against undefined. -/
def doesUserExist (userInfo : Descriptor) (rows : Table) : Bool :=
  (getUser userInfo rows).isSome

/- ===== community.ts: createUser and the users table ===== -/

/-- CommunityError (community-error.ts): carries a developer-facing error
code and a longer message. -/
structure CommunityError where
  errorCode : String
  message : String
deriving DecidableEq

/-- The users table together with the schema facts createUser interacts
with: the AUTO_INCREMENT counter assigning the next id, and the set of
columns carrying a UNIQUE constraint (declared through the additionalFields
configuration, e.g. username in the demo entry point). -/
structure UsersTable where
  rows : Table
  nextId : Int
  uniqueCols : List String
deriving DecidableEq

/-- The object spread { ...userInfo, ...passwordInfo } in createUser
(community.ts, lines 340 to 343): spreading undefined over an object is a
no-op in JavaScript, so when createLogin produced no material the merged
record is userInfo unchanged; otherwise the three credential properties are
added after the userInfo properties. -/
def foldPasswordInfo (userInfo : Descriptor) : Option UserPasswordInformation → Descriptor
  | none => userInfo
  | some info =>
      userInfo ++
        [("passwordHash", Value.vStr info.passwordHash),
         ("passwordSalt", Value.vStr info.passwordSalt),
         ("passwordIterations", Value.vInt info.passwordIterations)]

/-- Whether inserting the given record into the table would violate a
UNIQUE constraint: some unique column of the record holds a value already
present in that column of an existing row (SQL equality, so NULL values
never collide, matching MySQL UNIQUE semantics). -/
def hasUniqueCollision (tbl : UsersTable) (d : Descriptor) : Bool :=
  tbl.uniqueCols.any fun c =>
    match getField d c with
    | some v => tbl.rows.any fun r => columnEq r c v
    | none => false

/-- The table after a successful insert: the record stored under the next
AUTO_INCREMENT id, appended in insertion order. -/
def insertedTable (tbl : UsersTable) (d : Descriptor) : UsersTable :=
  { rows := tbl.rows ++ [("id", Value.vInt tbl.nextId) :: d]
    nextId := tbl.nextId + 1
    uniqueCols := tbl.uniqueCols }

/-- INSERT IGNORE INTO users SET ... (community.ts, lines 345 to 348), as
answered by the mysql driver: on a uniqueness violation the row is skipped
and the result reports affectedRows 0 (and insertId 0); otherwise the row is
stored with the next AUTO_INCREMENT id and the result reports affectedRows 1
and that id. Returns (table after, affectedRows, insertId). -/
def insertIgnore (tbl : UsersTable) (d : Descriptor) : UsersTable × Nat × Int :=
  if hasUniqueCollision tbl d then (tbl, 0, 0)
  else (insertedTable tbl d, 1, tbl.nextId)

/-- The message text of the error thrown on a failed insert (community.ts,
lines 356 to 360). -/
def duplicateUserMessage : String :=
  "Failed to insert a new user into the users table. This is most likely due to a failed uniqueness constraint, meaning that the user most likely already exists."

/-- createUser (community.ts, lines 336 to 364): obtains password material
from the agent, merges it with userInfo by object spread, INSERT IGNOREs the
merged record, then either re-fetches the row by the reported insertId
(affectedRows equal to 1) or throws the USER_ALREADY_EXISTS CommunityError.
The random salt consumed inside createLogin is passed in as `salt`. -/
def createUser (pb : String → String → Nat → String) (agent : AuthenticationAgent)
    (tbl : UsersTable) (password : String) (salt : String) (userInfo : Descriptor) :
    Except CommunityError (UsersTable × Option Row) :=
  let passwordInfo := createLogin pb agent password salt
  let fullUser := foldPasswordInfo userInfo passwordInfo
  let res := insertIgnore tbl fullUser
  if res.2.1 = 1 then
    Except.ok (res.1, getUser [("id", Value.vInt res.2.2)] res.1.rows)
  else
    Except.error { errorCode := "USER_ALREADY_EXISTS", message := duplicateUserMessage }

/-- The merged record createUser hands to INSERT IGNORE, exposed for
specification purposes. -/
def insertedUserRecord (pb : String → String → Nat → String) (agent : AuthenticationAgent)
    (password : String) (salt : String) (userInfo : Descriptor) : Descriptor :=
  foldPasswordInfo userInfo (createLogin pb agent password salt)

/- ===== community.ts: delete operations ===== -/

/-- The OK packet the mysql driver returns for a DELETE statement:
affectedRows is the number of rows removed; changedRows is parsed from the
drivers info string (Rows matched / Changed), which is only populated for
UPDATE statements, so a DELETE reports changedRows 0. -/
structure DeleteOkPacket where
  affectedRows : Nat
  changedRows : Option Nat
deriving DecidableEq

/-- The database round-trip of DELETE FROM users: every row is removed and
the driver reports the deleted count in affectedRows and 0 in changedRows. -/
def deleteAllRun (rows : Table) : Table × DeleteOkPacket :=
  ([], { affectedRows := rows.length, changedRows := some 0 })

/-- deleteAllUsers (community.ts, lines 465 to 473): issues DELETE FROM
users and returns result.results.changedRows ?? 0. -/
def deleteAllUsers (rows : Table) : Table × Nat :=
  let res := deleteAllRun rows
  (res.1, res.2.changedRows.getD 0)

/-- deleteUser (community.ts, lines 444 to 448): the body is
`return undefined as any` — an unimplemented stub that resolves to
undefined (none) instead of the promised boolean. -/
def deleteUser (_userInfo : Descriptor) : Option Bool :=
  none

/-- deleteUsers (community.ts, lines 455 to 459): the body is
`return undefined as any` — an unimplemented stub that resolves to
undefined (none) instead of the promised deletion count. -/
def deleteUsers (_userInfo : Descriptor) : Option Nat :=
  none

/- ===== community.ts: the updateUsers multi-statement protocol ===== -/

/-- The ids of the rows of `t` matching the descriptor, in table order: the
contents INSERT INTO updatedUserIDs SELECT id FROM users WHERE ... places
into the temporary working-set table. -/
def workingSet (d : Descriptor) (t : Table) : List Value :=
  (t.filter (matchesDescriptor d)).filterMap rowId

/-- Whether a users row joins the working set under the join condition
users.id = updatedUserIDs.id (SQL equality, NULL never joins). -/
def idInSet (r : Row) (ws : List Value) : Bool :=
  ws.any fun v => columnEq r "id" v

/-- UPDATE users RIGHT OUTER JOIN updatedUserIDs ON users.id =
updatedUserIDs.id SET ...: applies the SET clause exactly to the rows that
join the working set. -/
def applyUpdateJoin (u : Descriptor) (ws : List Value) (t : Table) : Table :=
  t.map fun r => if idInSet r ws then applySet u r else r

/-- SELECT * FROM users RIGHT OUTER JOIN updatedUserIDs ON users.id =
updatedUserIDs.id: one result row per working-set entry, the users row
joining it. -/
def readbackJoin (ws : List Value) (t : Table) : List Row :=
  ws.filterMap fun v => t.find? fun r => columnEq r "id" v

/-- The statement language of the updateUsers script (community.ts, lines
404 to 432). ROLLBACK is expressible in this language (MySQL supports it)
but the script never emits it. -/
inductive Stmt where
  | selectAutocommitInto
  | setAutocommitOff
  | startTransaction
  | dropTableIfExists
  | createTempTableIfNotExists
  | truncateTemp
  | insertIdsWhere : Descriptor → Stmt
  | updateJoinSet : Descriptor → Stmt
  | selectJoin
  | commitTxn
  | rollbackTxn
  | restoreAutocommit
deriving DecidableEq

/-- The connection-level database state the script acts on: the committed
users table (what other transactions and later calls observe), the working
transactional view of the users table, the contents of the temporary
updatedUserIDs table (none when it does not exist), whether a transaction is
open, the autocommit flag, and the session variable storing the saved
autocommit state. -/
structure DBState where
  committed : Table
  working : Table
  temp : Option (List Value)
  inTxn : Bool
  autocommit : Bool
  savedAutocommit : Option Bool
deriving DecidableEq

/-- Semantics of one statement: returns the next state and the statement
result set. Only COMMIT publishes the working view to the committed table. -/
def exec : Stmt → DBState → DBState × Table
  | Stmt.selectAutocommitInto, s => ({ s with savedAutocommit := some s.autocommit }, [])
  | Stmt.setAutocommitOff, s => ({ s with autocommit := false }, [])
  | Stmt.startTransaction, s => ({ s with inTxn := true, working := s.committed }, [])
  | Stmt.dropTableIfExists, s => ({ s with temp := none }, [])
  | Stmt.createTempTableIfNotExists, s => ({ s with temp := some (s.temp.getD []) }, [])
  | Stmt.truncateTemp, s => ({ s with temp := some [] }, [])
  | Stmt.insertIdsWhere d, s =>
      ({ s with temp := some (s.temp.getD [] ++ workingSet d s.working) }, [])
  | Stmt.updateJoinSet u, s =>
      ({ s with working := applyUpdateJoin u (s.temp.getD []) s.working }, [])
  | Stmt.selectJoin, s => (s, readbackJoin (s.temp.getD []) s.working)
  | Stmt.commitTxn, s => ({ s with committed := s.working, inTxn := false }, [])
  | Stmt.rollbackTxn, s => ({ s with working := s.committed, inTxn := false }, [])
  | Stmt.restoreAutocommit, s =>
      ({ s with autocommit := s.savedAutocommit.getD s.autocommit }, [])

/-- Runs a statement list in order, collecting one result set per
statement, as the mysql driver does for a multipleStatements query. -/
def runScript : List Stmt → DBState → DBState × List Table
  | [], s => (s, [])
  | stmt :: rest, s =>
      let first := exec stmt s
      let later := runScript rest first.1
      (later.1, first.2 :: later.2)

/-- The eleven-statement script updateUsers submits (community.ts, lines
404 to 432), built unconditionally from the two descriptors. -/
def updateUsersScript (identifyingInfo updatedInfo : Descriptor) : List Stmt :=
  [Stmt.selectAutocommitInto,
   Stmt.setAutocommitOff,
   Stmt.startTransaction,
   Stmt.dropTableIfExists,
   Stmt.createTempTableIfNotExists,
   Stmt.truncateTemp,
   Stmt.insertIdsWhere identifyingInfo,
   Stmt.updateJoinSet updatedInfo,
   Stmt.selectJoin,
   Stmt.commitTxn,
   Stmt.restoreAutocommit]

/-- updateUsers (community.ts, lines 401 to 437): submits the script and
returns result.results[8], the result set of the ninth statement (the
SELECT joined against the working set). -/
def updateUsers (identifyingInfo updatedInfo : Descriptor) (s : DBState) :
    DBState × List Row :=
  let res := runScript (updateUsersScript identifyingInfo updatedInfo) s
  (res.1, res.2.getD 8 [])

/-- The connection state after the driver aborts the script at statement
index `k`: the first `k` statements have taken effect and the failing one
has not. -/
def stateAfterFailure (identifyingInfo updatedInfo : Descriptor) (k : Nat) (s : DBState) :
    DBState :=
  (runScript ((updateUsersScript identifyingInfo updatedInfo).take k) s).1

/-- A call to updateUsers as observed by its caller, with an optional driver
failure at statement index `failAt`. The method wraps the single query call
in no try/catch, so a driver error rejects the returned promise (modelled as
Except.error carrying the connection state left behind); no further
statement — in particular no ROLLBACK — is issued after the failure. -/
def updateUsersAttempt (identifyingInfo updatedInfo : Descriptor) (failAt : Option Nat)
    (s : DBState) : Except DBState (DBState × List Row) :=
  match failAt with
  | none => Except.ok (updateUsers identifyingInfo updatedInfo s)
  | some k => Except.error (stateAfterFailure identifyingInfo updatedInfo k s)

/- ===== snapshot semantics of the update protocol ===== -/

theorem find?_columnEq_id {t : Table} {r : Row} {w : Value}
    (hmem : r ∈ t) (hv : rowId r = some w) (hself : sqlEq w w = true)
    (hnd : (t.map rowId).Nodup) :
    t.find? (fun x => columnEq x "id" w) = some r := by
  induction t with
  | nil => cases hmem
  | cons a rest ih =>
    rw [List.map_cons, List.nodup_cons] at hnd
    by_cases hpa : columnEq a "id" w = true
    · obtain ⟨w2, hw2, hsq⟩ := columnEq_eq_true.mp hpa
      have hw2w : w2 = w := sqlEq_true_eq hsq
      have hida : rowId a = some w := by rw [rowId]; rw [hw2] ; rw [hw2w]
      have har : a = r := by
        rcases List.mem_cons.mp hmem with h | h
        · exact h.symm
        · exfalso
          apply hnd.1
          have h2 : rowId r ∈ rest.map rowId := List.mem_map_of_mem rowId h
          rw [hida, ← hv]
          exact h2
      rw [List.find?_cons_of_pos (p := fun x => columnEq x "id" w) rest hpa, har]
    · have har : r ≠ a := by
        intro h
        apply hpa
        rw [← h]
        exact columnEq_eq_true.mpr ⟨w, hv, hself⟩
      have hmem2 : r ∈ rest := by
        rcases List.mem_cons.mp hmem with h | h
        · exact absurd h har
        · exact h
      rw [List.find?_cons_of_neg (p := fun x => columnEq x "id" w) rest hpa]
      exact ih hmem2 hnd.2

theorem rowId_updateRow (u : Descriptor) (ws : List Value)
    (hid : "id" ∉ u.map Prod.fst) (x : Row) :
    rowId (if idInSet x ws then applySet u x else x) = rowId x := by
  split
  · exact rowId_applySet x hid
  · rfl

theorem columnEq_id_updateRow (u : Descriptor) (ws : List Value)
    (hid : "id" ∉ u.map Prod.fst) (x : Row) (v : Value) :
    columnEq (if idInSet x ws then applySet u x else x) "id" v = columnEq x "id" v := by
  unfold columnEq
  rw [show getField (if idInSet x ws then applySet u x else x) "id" = getField x "id" from
    rowId_updateRow u ws hid x]

theorem readbackJoin_applyUpdate (u : Descriptor) (t : Table) (ws : List Value)
    (hid : "id" ∉ u.map Prod.fst)
    (hnd : (t.map rowId).Nodup) :
    ∀ m : List Row, (∀ r ∈ m, r ∈ t) → (∀ r ∈ m, idInSet r ws = true) →
      readbackJoin (m.filterMap rowId) (applyUpdateJoin u ws t) = m.map (applySet u) := by
  intro m
  induction m with
  | nil =>
    intro _ _
    rfl
  | cons r m ih =>
    intro hsub hin
    have hrt : r ∈ t := hsub r (List.mem_cons_self r m)
    have hrin : idInSet r ws = true := hin r (List.mem_cons_self r m)
    obtain ⟨v, hvmem, hcol⟩ : ∃ v, v ∈ ws ∧ columnEq r "id" v = true := by
      have h := hrin
      unfold idInSet at h
      simpa [List.any_eq_true] using h
    obtain ⟨w, hw, hsq⟩ := columnEq_eq_true.mp hcol
    have hwv : w = v := sqlEq_true_eq hsq
    subst hwv
    have hrid : rowId r = some w := hw
    have hself : sqlEq w w = true := hsq
    have hfind : (applyUpdateJoin u ws t).find? (fun x => columnEq x "id" w)
        = some (applySet u r) := by
      unfold applyUpdateJoin
      rw [List.find?_map]
      have hp : ((fun x => columnEq x "id" w) ∘ fun x => if idInSet x ws then applySet u x else x)
          = fun x => columnEq x "id" w := by
        funext x
        exact columnEq_id_updateRow u ws hid x w
      rw [hp, find?_columnEq_id hrt hrid hself hnd]
      simp [hrin]
    have h1 : (r :: m).filterMap rowId = w :: m.filterMap rowId := by
      rw [List.filterMap_cons, hrid]
    rw [h1, List.map_cons]
    show List.filterMap _ (w :: m.filterMap rowId) = _
    rw [List.filterMap_cons, hfind]
    exact congrArg _ (ih (fun x hx => hsub x (List.mem_cons_of_mem r hx))
      (fun x hx => hin x (List.mem_cons_of_mem r hx)))

theorem readback_snapshot (d u : Descriptor) (t : Table)
    (hid : "id" ∉ u.map Prod.fst)
    (hids : ∀ r ∈ t, hasIntId r = true)
    (hnd : (t.map rowId).Nodup) :
    readbackJoin (workingSet d t) (applyUpdateJoin u (workingSet d t) t)
      = (t.filter (matchesDescriptor d)).map (applySet u) := by
  have hsub : ∀ r ∈ t.filter (matchesDescriptor d), r ∈ t :=
    fun r hr => List.mem_of_mem_filter hr
  have hin : ∀ r ∈ t.filter (matchesDescriptor d), idInSet r (workingSet d t) = true := by
    intro r hr
    obtain ⟨n, hn⟩ := hasIntId_elim (hids r (hsub r hr))
    unfold idInSet
    rw [List.any_eq_true]
    refine ⟨Value.vInt n, List.mem_filterMap.mpr ⟨r, hr, hn⟩, ?_⟩
    unfold columnEq
    rw [show getField r "id" = some (Value.vInt n) from hn]
    simp [sqlEq]
  have h := readbackJoin_applyUpdate u t (workingSet d t) hid hnd
    (t.filter (matchesDescriptor d)) hsub hin
  simpa [workingSet] using h

theorem updateUsers_eval (d u : Descriptor) (s : DBState) :
    (updateUsers d u s).2
      = readbackJoin (workingSet d s.committed)
          (applyUpdateJoin u (workingSet d s.committed) s.committed) := by
  rfl

/- ===== concrete fixtures ===== -/

/-- A users table of three rows, two of them with status A, with distinct
integer primary keys. -/
def exTable : Table :=
  [[("id", Value.vInt 1), ("status", Value.vStr "A")],
   [("id", Value.vInt 2), ("status", Value.vStr "A")],
   [("id", Value.vInt 3), ("status", Value.vStr "C")]]

/-- An idle connection over exTable: nothing in flight, autocommit on. -/
def exState : DBState :=
  { committed := exTable
    working := exTable
    temp := none
    inTxn := false
    autocommit := true
    savedAutocommit := none }

/-- The identifying descriptor selecting status A. -/
def exWhere : Descriptor := [("status", Value.vStr "A")]

/-- The update descriptor rewriting status to B. -/
def exSet : Descriptor := [("status", Value.vStr "B")]

/-- A one-row users table used for the failure scenarios. -/
def fTable : Table := [[("id", Value.vInt 1), ("status", Value.vStr "A")]]

/-- An idle connection over fTable. -/
def fState : DBState :=
  { committed := fTable
    working := fTable
    temp := none
    inTxn := false
    autocommit := true
    savedAutocommit := none }

/- ===== claim theorems ===== -/

/-- Claim C1: for non-empty identifying and update descriptors, updateUsers
returns exactly the post-update state of exactly the rows that matched the
identifying descriptor before the update: the matching primary keys are
materialized into the working set, the SET mutation is applied joined
against that working set, and the read-back joins against the same working
set, so the returned rows are the captured ones with the mutation applied —
independent of whether they still match the original predicate. Assumes the
schema invariants of the users table: every row has a non-NULL integer id,
ids are distinct, and the update descriptor cannot name the id column (its
TypeScript type ranges over the custom columns only). -/
theorem updateUsers_snapshot_semantics
    (d u : Descriptor) (s : DBState) (t : Table)
    (ht : s.committed = t)
    (hd : d ≠ []) (hu : u ≠ [])
    (hid : "id" ∉ u.map Prod.fst)
    (hids : ∀ r ∈ t, hasIntId r = true)
    (hnd : (t.map rowId).Nodup) :
    (updateUsers d u s).2 = (t.filter (matchesDescriptor d)).map (applySet u) := by
  subst ht
  rw [updateUsers_eval]
  exact readback_snapshot d u s.committed hid hids hnd

/-- Witness for C1: updating status A to status B on a concrete three-row
table returns exactly the two previously matching rows with status B,
although neither of them matches status A any more. -/
theorem updateUsers_snapshot_semantics_witness :
    (exWhere ≠ [] ∧ exSet ≠ [] ∧ "id" ∉ exSet.map Prod.fst
      ∧ (∀ r ∈ exTable, hasIntId r = true) ∧ (exTable.map rowId).Nodup)
    ∧ (updateUsers exWhere exSet exState).2
        = (exTable.filter (matchesDescriptor exWhere)).map (applySet exSet)
    ∧ ((updateUsers exWhere exSet exState).2.filter (matchesDescriptor exWhere)) = [] :=
  ⟨⟨by decide, by decide, by decide, by decide, by decide⟩,
   updateUsers_snapshot_semantics exWhere exSet exState exTable rfl (by decide)
     (by decide) (by decide) (by decide) (by decide),
   by decide⟩

/-- Claim C3 counterexample: on the empty descriptor the clause builders do
not fail — no EmptyDescriptorError exists anywhere in the code — they return
the bare keyword, and updateUsers builds its script from empty descriptors
unchanged instead of failing before touching the database. -/
theorem buildClauses_empty_descriptor_yield_keyword :
    generateWhereClauseForObject [] plainAgent true = "WHERE "
    ∧ generateSetClauseForObject [] plainAgent true = "SET "
    ∧ updateUsersScript [] []
        = [Stmt.selectAutocommitInto, Stmt.setAutocommitOff, Stmt.startTransaction,
           Stmt.dropTableIfExists, Stmt.createTempTableIfNotExists, Stmt.truncateTemp,
           Stmt.insertIdsWhere [], Stmt.updateJoinSet [], Stmt.selectJoin,
           Stmt.commitTxn, Stmt.restoreAutocommit] :=
  ⟨rfl, rfl, rfl⟩

/-- Claim C3 (amended): generateWhereClauseForObject and
generateSetClauseForObject are total on the empty descriptor and return only
the keyword prefix (WHERE or SET followed by an empty clause body), and
updateUsers performs no emptiness check on either descriptor: the script it
submits is built unconditionally, embedding whatever descriptors it was
given. -/
theorem generateClauses_total_no_empty_guard :
    (∀ (agent : StringEscapingAgent) (b : Bool),
        generateWhereClauseForObject [] agent b = (if b then "WHERE " else ""))
    ∧ (∀ (agent : StringEscapingAgent) (b : Bool),
        generateSetClauseForObject [] agent b = (if b then "SET " else ""))
    ∧ (∀ d u : Descriptor, updateUsersScript d u
        = [Stmt.selectAutocommitInto, Stmt.setAutocommitOff, Stmt.startTransaction,
           Stmt.dropTableIfExists, Stmt.createTempTableIfNotExists, Stmt.truncateTemp,
           Stmt.insertIdsWhere d, Stmt.updateJoinSet u, Stmt.selectJoin,
           Stmt.commitTxn, Stmt.restoreAutocommit]) := by
  refine ⟨?_, ?_, ?_⟩
  · intro agent b
    simp [generateWhereClauseForObject, String.intercalate]
  · intro agent b
    simp [generateSetClauseForObject, String.intercalate]
  · intro d u
    rfl

/-- Claim C5 counterexample: when the driver aborts the script after the
UPDATE statement (failure at statement index 8), the transaction is NOT
rolled back: the script contains no ROLLBACK statement, and the connection
is left inside an open transaction (inTxn true, autocommit still disabled)
whose working view differs from the committed table. -/
theorem updateUsers_failure_not_rolled_back :
    (updateUsersScript exWhere exSet).contains Stmt.rollbackTxn = false
    ∧ (stateAfterFailure exWhere exSet 8 fState).inTxn = true
    ∧ (stateAfterFailure exWhere exSet 8 fState).autocommit = false
    ∧ (stateAfterFailure exWhere exSet 8 fState).working
        ≠ (stateAfterFailure exWhere exSet 8 fState).committed := by
  refine ⟨rfl, rfl, rfl, ?_⟩
  decide

/-- Claim C5 (amended): if any statement up to and including the COMMIT
fails (failure index at most 9, so COMMIT never completes), the error is
surfaced to the caller — updateUsers installs no handler — and no partial
update is visible in the committed users table, because nothing was
committed; however the code issues no ROLLBACK (the script contains none),
leaving the transaction open rather than rolled back. -/
theorem updateUsers_failure_surfaces_without_commit
    (d u : Descriptor) (s : DBState) (k : Nat) (hk : k ≤ 9) :
    updateUsersAttempt d u (some k) s = Except.error (stateAfterFailure d u k s)
    ∧ (stateAfterFailure d u k s).committed = s.committed
    ∧ (updateUsersScript d u).all (fun st => decide (st ≠ Stmt.rollbackTxn)) = true := by
  refine ⟨rfl, ?_, ?_⟩
  · interval_cases k <;>
      simp [stateAfterFailure, updateUsersScript, List.take, runScript, exec]
  · simp [updateUsersScript]

/-- Witness for C5: the amended statement instantiated at a failure right
after the UPDATE statement on a concrete one-row table. -/
theorem updateUsers_failure_surfaces_without_commit_witness :
    8 ≤ 9
    ∧ (updateUsersAttempt exWhere exSet (some 8) fState
        = Except.error (stateAfterFailure exWhere exSet 8 fState)
      ∧ (stateAfterFailure exWhere exSet 8 fState).committed = fState.committed
      ∧ (updateUsersScript exWhere exSet).all (fun st => decide (st ≠ Stmt.rollbackTxn)) = true) :=
  ⟨by decide, updateUsers_failure_surfaces_without_commit exWhere exSet fState 8 (by decide)⟩

/- ===== credential fixtures ===== -/

/-- A stand-in key-derivation primitive used only to instantiate the
parameterized theorems on concrete inputs; injective in the password for
any fixed salt-plus-pepper and iteration count. -/
def idKdf : String → String → Nat → String := fun input _ _ => input

/-- An agent configured like the demo entry point: a secret pepper, ten
thousand iterations, and conformity requiring at least eight characters. -/
def exAgent : AuthenticationAgent :=
  { pepper := "server-pepper"
    hashingIterations := 10000
    passwordConformityFunction := fun password => decide (8 ≤ password.length) }

/-- The credential material createLogin derives for the password
hunter2hunter2 with salt somesalt under idKdf and exAgent. -/
def exInfo : UserPasswordInformation :=
  { passwordHash := "hunter2hunter2"
    passwordSalt := "somesalt"
    passwordIterations := 10000 }

/-- Claim C2: after createLogin(p) succeeds (p conforms) and its material is
folded into a user record, checkLogin accepts exactly p: it accepts p, and
rejects every other password, provided the key-derivation primitive is
injective in the password at the fixed salt-plus-pepper and iteration count
(collision-freeness of pbkdf2, an assumption about the external crypto
collaborator). -/
theorem createLogin_checkLogin_roundtrip
    (pb : String → String → Nat → String) (agent : AuthenticationAgent)
    (p salt : String) (info : UserPasswordInformation)
    (hconf : checkPasswordConformity agent p = true)
    (hcreate : createLogin pb agent p salt = some info)
    (hinj : ∀ a b : String,
      pb a (salt ++ agent.pepper) agent.hashingIterations
        = pb b (salt ++ agent.pepper) agent.hashingIterations → a = b) :
    checkLogin pb agent info p = true
    ∧ ∀ q : String, q ≠ p → checkLogin pb agent info q = false := by
  have hinfo : info
      = { passwordHash := createHash pb agent p salt agent.hashingIterations
          passwordSalt := salt
          passwordIterations := agent.hashingIterations } := by
    unfold createLogin at hcreate
    rw [hconf] at hcreate
    simpa using hcreate.symm
  subst hinfo
  constructor
  · show (createHash pb agent p salt agent.hashingIterations
      == createHash pb agent p salt agent.hashingIterations) = true
    exact beq_self_eq_true _
  · intro q hq
    show (createHash pb agent p salt agent.hashingIterations
      == createHash pb agent q salt agent.hashingIterations) = false
    rw [beq_eq_false_iff_ne]
    intro heq
    exact hq (hinj q p heq.symm)

/-- Witness for C2: concrete round trip under the injective stand-in
primitive: login verification accepts the created password and rejects a
different one. -/
theorem createLogin_checkLogin_roundtrip_witness :
    checkPasswordConformity exAgent "hunter2hunter2" = true
    ∧ createLogin idKdf exAgent "hunter2hunter2" "somesalt" = some exInfo
    ∧ (checkLogin idKdf exAgent exInfo "hunter2hunter2" = true
      ∧ ∀ q : String, q ≠ "hunter2hunter2" → checkLogin idKdf exAgent exInfo q = false) :=
  ⟨by decide, by decide,
   createLogin_checkLogin_roundtrip idKdf exAgent "hunter2hunter2" "somesalt" exInfo
     (by decide) (by decide) (fun a b h => h)⟩

/- ===== claim C4 fixtures and theorem ===== -/

/-- An empty users table whose username column carries a UNIQUE constraint,
as declared by the demo configuration. -/
def emptyUsers : UsersTable :=
  { rows := [], nextId := 1, uniqueCols := ["username"] }

/-- The row createUser persists for a non-conforming password: only the
custom field and the assigned id — no credential columns at all. -/
def c4Row : Row := [("id", Value.vInt 1), ("username", Value.vStr "alice")]

/-- The users table after that insert. -/
def c4After : UsersTable :=
  { rows := [c4Row], nextId := 2, uniqueCols := ["username"] }

/-- Claim C4 (evaluated at the failing input): for the non-conforming
password short, createLogin yields no material, the object spread of
undefined drops the credential fields entirely, and createUser nevertheless
persists the row through INSERT IGNORE and returns it successfully — the
stored row has passwordHash, passwordSalt and passwordIterations all
absent, violating the claimed invariant. -/
theorem createUser_nonconforming_persists_incomplete_row :
    checkPasswordConformity exAgent "short" = false
    ∧ createLogin idKdf exAgent "short" "somesalt" = none
    ∧ createUser idKdf exAgent emptyUsers "short" "somesalt" [("username", Value.vStr "alice")]
        = Except.ok (c4After, some c4Row)
    ∧ getField c4Row "passwordHash" = none
    ∧ getField c4Row "passwordSalt" = none
    ∧ getField c4Row "passwordIterations" = none :=
  ⟨rfl, rfl, rfl, rfl, rfl, rfl⟩

/- ===== claims C9 and C10 ===== -/

theorem head?_take_one {α : Type} (l : List α) : (l.take 1).head? = l.head? := by
  cases l <;> rfl

/-- Claim C9: for a non-empty descriptor, getUser returns the first row
satisfying the WHERE clause built from the descriptor (LIMIT 1), returns
undefined (none) exactly when no row matches — a zero-row result is an
ordinary return value, there is no throwing path — and any returned row is
a matching row of the table. -/
theorem getUser_lookup (userInfo : Descriptor) (rows : Table) (hne : userInfo ≠ []) :
    getUser userInfo rows = rows.find? (matchesDescriptor userInfo)
    ∧ (getUser userInfo rows = none ↔ ∀ r ∈ rows, matchesDescriptor userInfo r = false)
    ∧ ∀ r, getUser userInfo rows = some r → r ∈ rows ∧ matchesDescriptor userInfo r = true := by
  have heq : getUser userInfo rows = rows.find? (matchesDescriptor userInfo) := by
    unfold getUser
    rw [head?_take_one, List.filter_head?]
  refine ⟨heq, ?_, ?_⟩
  · rw [heq, List.find?_eq_none]
    constructor
    · intro h r hr
      simpa using h r hr
    · intro h r hr
      simp [h r hr]
  · intro r hr
    rw [heq] at hr
    exact ⟨List.mem_of_find?_eq_some hr, List.find?_some hr⟩

/-- Witness for C9: looking up id 999 on an empty table returns none (the
not-found result) without any error. -/
theorem getUser_lookup_witness :
    ([("id", Value.vInt 999)] ≠ ([] : Descriptor))
    ∧ (getUser [("id", Value.vInt 999)] []
          = List.find? (matchesDescriptor [("id", Value.vInt 999)]) []
      ∧ (getUser [("id", Value.vInt 999)] [] = none
          ↔ ∀ r ∈ ([] : Table), matchesDescriptor [("id", Value.vInt 999)] r = false)
      ∧ ∀ r, getUser [("id", Value.vInt 999)] [] = some r
          → r ∈ ([] : Table) ∧ matchesDescriptor [("id", Value.vInt 999)] r = true) :=
  ⟨by decide, getUser_lookup [("id", Value.vInt 999)] [] (by decide)⟩

/-- Claim C10: doesUserExist is exactly definedness of getUser on the same
state — it delegates to getUser and compares with undefined, with no query
logic of its own. -/
theorem doesUserExist_iff_getUser (userInfo : Descriptor) (rows : Table) :
    doesUserExist userInfo rows = true ↔ ∃ r, getUser userInfo rows = some r := by
  simp [doesUserExist, Option.isSome_iff_exists]

/- ===== claim C6: duplicate detection in createUser ===== -/

theorem getField_cons_ne (k : String) (v : Value) (rest : Row) (c : String) (h : k ≠ c) :
    getField ((k, v) :: rest) c = getField rest c := by
  simp [getField, h]

theorem columnEq_of_getField {r : Row} {c : String} {v w : Value}
    (h : getField r c = some w) : columnEq r c v = sqlEq w v := by
  unfold columnEq
  rw [h]

/-- Evaluation of createUser: the call errors with the USER_ALREADY_EXISTS
code exactly when the insert reports affectedRows other than 1, which in the
driver model happens exactly on a uniqueness collision; otherwise it returns
the grown table and the row re-fetched by the reported insertId. -/
theorem createUser_eval (pb : String → String → Nat → String) (agent : AuthenticationAgent)
    (tbl : UsersTable) (password salt : String) (userInfo : Descriptor) :
    createUser pb agent tbl password salt userInfo
      = if hasUniqueCollision tbl (insertedUserRecord pb agent password salt userInfo) then
          Except.error { errorCode := "USER_ALREADY_EXISTS", message := duplicateUserMessage }
        else
          Except.ok (insertedTable tbl (insertedUserRecord pb agent password salt userInfo),
            getUser [("id", Value.vInt tbl.nextId)]
              (insertedTable tbl (insertedUserRecord pb agent password salt userInfo)).rows) := by
  by_cases h :
      hasUniqueCollision tbl (foldPasswordInfo userInfo (createLogin pb agent password salt)) = true
  · simp [createUser, insertIgnore, insertedUserRecord, h]
  · simp [createUser, insertIgnore, insertedUserRecord, h]

/-- Claim C6: with no collision on the first insert and a shared value in a
unique column, the first createUser succeeds and returns the row re-fetched
by the newly assigned id; the second call sees the driver report
affectedRows different from 1 (detected by the affected-row count, not by
error-text parsing), fails with the CommunityError carrying code
USER_ALREADY_EXISTS, and leaves exactly one row with the duplicated value in
the table. -/
theorem createUser_duplicate_detection
    (pb : String → String → Nat → String) (agent : AuthenticationAgent)
    (tbl : UsersTable) (p1 s1 p2 s2 : String) (u1 u2 : Descriptor)
    (c : String) (v : Value)
    (hno1 : hasUniqueCollision tbl (insertedUserRecord pb agent p1 s1 u1) = false)
    (hv1 : getField (insertedUserRecord pb agent p1 s1 u1) c = some v)
    (hv2 : getField (insertedUserRecord pb agent p2 s2 u2) c = some v)
    (hc : c ∈ tbl.uniqueCols)
    (hcid : c ≠ "id")
    (hself : sqlEq v v = true)
    (hcount0 : ∀ r ∈ tbl.rows, columnEq r c v = false) :
    createUser pb agent tbl p1 s1 u1
        = Except.ok (insertedTable tbl (insertedUserRecord pb agent p1 s1 u1),
            getUser [("id", Value.vInt tbl.nextId)]
              (insertedTable tbl (insertedUserRecord pb agent p1 s1 u1)).rows)
    ∧ (insertIgnore (insertedTable tbl (insertedUserRecord pb agent p1 s1 u1))
          (insertedUserRecord pb agent p2 s2 u2)).2.1 ≠ 1
    ∧ (∃ e : CommunityError,
        createUser pb agent (insertedTable tbl (insertedUserRecord pb agent p1 s1 u1)) p2 s2 u2
          = Except.error e
        ∧ e.errorCode = "USER_ALREADY_EXISTS")
    ∧ ((insertedTable tbl (insertedUserRecord pb agent p1 s1 u1)).rows.filter
        (fun r => columnEq r c v)).length = 1 := by
  have hrow : getField (("id", Value.vInt tbl.nextId) :: insertedUserRecord pb agent p1 s1 u1) c
      = some v :=
    (getField_cons_ne _ _ _ _ (fun h => hcid h.symm)).trans hv1
  have hcr1 : columnEq (("id", Value.vInt tbl.nextId) :: insertedUserRecord pb agent p1 s1 u1) c v
      = true :=
    (columnEq_of_getField hrow).trans hself
  have hcol2 : hasUniqueCollision (insertedTable tbl (insertedUserRecord pb agent p1 s1 u1))
      (insertedUserRecord pb agent p2 s2 u2) = true := by
    unfold hasUniqueCollision
    rw [List.any_eq_true]
    refine ⟨c, ?_, ?_⟩
    · show c ∈ tbl.uniqueCols
      exact hc
    · rw [hv2]
      show ((insertedTable tbl (insertedUserRecord pb agent p1 s1 u1)).rows.any
        fun r => columnEq r c v) = true
      rw [List.any_eq_true]
      refine ⟨("id", Value.vInt tbl.nextId) :: insertedUserRecord pb agent p1 s1 u1, ?_, hcr1⟩
      show _ ∈ tbl.rows ++ [("id", Value.vInt tbl.nextId) :: insertedUserRecord pb agent p1 s1 u1]
      exact List.mem_append_right _ (List.mem_singleton.mpr rfl)
  refine ⟨?_, ?_, ?_, ?_⟩
  · rw [createUser_eval, if_neg (by rw [hno1]; exact Bool.false_ne_true)]
  · simp [insertIgnore, hcol2]
  · refine ⟨{ errorCode := "USER_ALREADY_EXISTS", message := duplicateUserMessage }, ?_, rfl⟩
    rw [createUser_eval, if_pos hcol2]
  · show ((tbl.rows ++ [("id", Value.vInt tbl.nextId) :: insertedUserRecord pb agent p1 s1 u1]).filter
      (fun r => columnEq r c v)).length = 1
    rw [List.filter_append]
    have h0 : tbl.rows.filter (fun r => columnEq r c v) = [] := by
      rw [List.filter_eq_nil_iff]
      intro a ha
      simp [hcount0 a ha]
    rw [h0]
    simp [List.filter_cons, hcr1]

/-- The custom fields of the first created user: a unique username and a
first name. -/
def c6u1 : Descriptor := [("username", Value.vStr "alice"), ("firstName", Value.vStr "Alice")]

/-- The custom fields of the second created user: the same username. -/
def c6u2 : Descriptor := [("username", Value.vStr "alice")]

/-- Witness for C6: two concrete createUser calls sharing the username
alice on an initially empty table with a UNIQUE username column: the second
call fails with USER_ALREADY_EXISTS and exactly one alice row remains. -/
theorem createUser_duplicate_detection_witness :
    (hasUniqueCollision emptyUsers
        (insertedUserRecord idKdf exAgent "hunter2hunter2" "salt1" c6u1) = false
      ∧ getField (insertedUserRecord idKdf exAgent "hunter2hunter2" "salt1" c6u1) "username"
          = some (Value.vStr "alice")
      ∧ getField (insertedUserRecord idKdf exAgent "hunter2hunter2" "salt2" c6u2) "username"
          = some (Value.vStr "alice")
      ∧ "username" ∈ emptyUsers.uniqueCols
      ∧ "username" ≠ "id"
      ∧ sqlEq (Value.vStr "alice") (Value.vStr "alice") = true
      ∧ ∀ r ∈ emptyUsers.rows, columnEq r "username" (Value.vStr "alice") = false)
    ∧ (∃ e : CommunityError,
        createUser idKdf exAgent
            (insertedTable emptyUsers (insertedUserRecord idKdf exAgent "hunter2hunter2" "salt1" c6u1))
            "hunter2hunter2" "salt2" c6u2
          = Except.error e
        ∧ e.errorCode = "USER_ALREADY_EXISTS")
    ∧ ((insertedTable emptyUsers (insertedUserRecord idKdf exAgent "hunter2hunter2" "salt1" c6u1)).rows.filter
        (fun r => columnEq r "username" (Value.vStr "alice"))).length = 1 :=
  ⟨⟨by decide, by decide, by decide, by decide, by decide, by decide, by decide⟩,
   (createUser_duplicate_detection idKdf exAgent emptyUsers "hunter2hunter2" "salt1"
      "hunter2hunter2" "salt2" c6u1 c6u2 "username" (Value.vStr "alice")
      (by decide) (by decide) (by decide) (by decide) (by decide) (by decide)
      (by decide)).2.2.1,
   (createUser_duplicate_detection idKdf exAgent emptyUsers "hunter2hunter2" "salt1"
      "hunter2hunter2" "salt2" c6u1 c6u2 "username" (Value.vStr "alice")
      (by decide) (by decide) (by decide) (by decide) (by decide) (by decide)
      (by decide)).2.2.2⟩

/- ===== claim C8: delete operations ===== -/

/-- A two-row users table. -/
def c8Rows : Table := [[("id", Value.vInt 1)], [("id", Value.vInt 2)]]

/-- Claim C8 (evaluated at the failing input): on a two-row table,
deleteAllUsers removes both rows yet reports 0 — it reads changedRows (which
the driver leaves at 0 for a DELETE) instead of affectedRows (which holds
the true count 2) — and deleteUser and deleteUsers are unimplemented stubs
resolving to undefined rather than the promised boolean and count. -/
theorem delete_operations_misreport :
    (deleteAllUsers c8Rows).1 = []
    ∧ c8Rows.length = 2
    ∧ (deleteAllUsers c8Rows).2 = 0
    ∧ (deleteAllRun c8Rows).2.affectedRows = 2
    ∧ deleteUser [("id", Value.vInt 1)] = none
    ∧ deleteUsers [("id", Value.vInt 1)] = none :=
  ⟨rfl, rfl, rfl, rfl, rfl, rfl⟩

end CommunityJS
